import Mathlib

/-!
Verification model of the Helios DAC host driver core
(src/libs/libheliosdac/includes/HeliosDac.h).

The repository ships only the header of the driver: constants, the point
structure, the public operations of `HeliosDac` / `HeliosDacDevice`, and the
private session fields (`frameReady`, `closed`, `frameBuffer`, `frameResult`,
`name[32]`), together with documentation comments.  The operation bodies are
not part of the repository, so they are modelled from the specification where
the header does not decide them; every such definition carries a doc comment
starting with `Modelled from the spec:`.
-/

namespace HeliosSpec

/-- Constant from HeliosDac.h: `#define HELIOS_MAX_POINTS 0x1000`. -/
def HELIOS_MAX_POINTS : Nat := 0x1000

/-- Constant from HeliosDac.h: `#define HELIOS_MAX_RATE 0xFFFF`. -/
def HELIOS_MAX_RATE : Nat := 0xFFFF

/-- Constant from HeliosDac.h: `#define HELIOS_MIN_RATE 7`. -/
def HELIOS_MIN_RATE : Nat := 7

/-- Constant from HeliosDac.h: `#define HELIOS_SUCCESS 1`. -/
def HELIOS_SUCCESS : Int := 1

/-- Constant from HeliosDac.h: `#define HELIOS_ERROR -1`
(functions return this if something went wrong). -/
def HELIOS_ERROR : Int := -1

/-- Constant from HeliosDac.h: `#define HELIOS_FLAGS_DEFAULT 0`. -/
def HELIOS_FLAGS_DEFAULT : Nat := 0

/-- Constant from HeliosDac.h: `#define HELIOS_FLAGS_START_IMMEDIATELY (1 << 0)`. -/
def HELIOS_FLAGS_START_IMMEDIATELY : Nat := 1

/-- Constant from HeliosDac.h: `#define HELIOS_FLAGS_SINGLE_MODE (1 << 1)`. -/
def HELIOS_FLAGS_SINGLE_MODE : Nat := 2

/-- Constant from HeliosDac.h: `#define HELIOS_FLAGS_DONT_BLOCK (1 << 2)`. -/
def HELIOS_FLAGS_DONT_BLOCK : Nat := 4

/-- Point data structure from HeliosDac.h (`struct HeliosPoint`):
`x`, `y` are 12-bit coordinates stored in 16-bit fields (0 to 0xFFF);
`r`, `g`, `b`, `i` are 8-bit colour/intensity channels (0 to 0xFF).
Machine integers are modelled as `Nat` together with the validity
predicate `HeliosPoint.Valid`. -/
structure HeliosPoint where
  x : Nat
  y : Nat
  r : Nat
  g : Nat
  b : Nat
  i : Nat
deriving DecidableEq, Repr

/-- A point whose fields are within the bit widths declared in the header:
coordinates 12-bit, colour channels 8-bit. -/
def HeliosPoint.Valid (p : HeliosPoint) : Prop :=
  p.x < 4096 ∧ p.y < 4096 ∧ p.r < 256 ∧ p.g < 256 ∧ p.b < 256 ∧ p.i < 256

instance (p : HeliosPoint) : Decidable p.Valid := by
  unfold HeliosPoint.Valid; infer_instance

/-- Modelled from the spec: the Frame Encoder byte layout for one point
(the body of `HeliosDacDevice::SendFrame` is not in the repository).
Each point is serialised in the device fixed field widths declared in the
header: the two 12-bit coordinates packed into three bytes, followed by the
four 8-bit colour channels. -/
def encodePoint (p : HeliosPoint) : List Nat :=
  [p.x / 16, (p.x % 16) * 16 + p.y / 256, p.y % 256, p.r, p.g, p.b, p.i]

/-- Serialisation of a point sequence: the points in order, each through
`encodePoint`. -/
def encodePoints : List HeliosPoint → List Nat
  | [] => []
  | p :: ps => encodePoint p ++ encodePoints ps

/-- Modelled from the spec: the Frame Encoder
(`Encode(points, rate, flags) -> byte sequence`; the body of
`HeliosDacDevice::SendFrame` is not in the repository).  The byte sequence
holds each point in the device field widths, followed by trailing metadata
encoding the requested rate, the point count and the flags, each multi-byte
field little-endian. -/
def encodeFrame (pps : Nat) (flags : Nat) (points : List HeliosPoint) : List Nat :=
  encodePoints points ++
    [pps % 256, pps / 256 % 256,
     points.length % 256, points.length / 256 % 256,
     flags % 256]

/-- Rebuilds a point from its seven serialised bytes (inverse direction of
`encodePoint`). -/
def mkPoint (b0 b1 b2 b3 b4 b5 b6 : Nat) : HeliosPoint :=
  { x := b0 * 16 + b1 / 16
    y := (b1 % 16) * 256 + b2
    r := b3
    g := b4
    b := b5
    i := b6 }

/-- Decoder for the frame byte layout produced by `encodeFrame`: consumes
seven bytes per point until exactly the five trailing metadata bytes remain,
and returns the points, the rate, the point count and the flags. -/
def parseFrame : List Nat → Option (List HeliosPoint × Nat × Nat × Nat)
  | [m0, m1, m2, m3, m4] => some ([], m0 + 256 * m1, m2 + 256 * m3, m4)
  | b0 :: b1 :: b2 :: b3 :: b4 :: b5 :: b6 :: rest =>
    match parseFrame rest with
    | some (pts, pps, n, flags) => some (mkPoint b0 b1 b2 b3 b4 b5 b6 :: pts, pps, n, flags)
    | none => none
  | _ => none

theorem mkPoint_encodePoint (p : HeliosPoint) (hy : p.y < 4096) :
    mkPoint (p.x / 16) ((p.x % 16) * 16 + p.y / 256) (p.y % 256) p.r p.g p.b p.i = p := by
  have h1 : p.x / 16 * 16 + ((p.x % 16) * 16 + p.y / 256) / 16 = p.x := by omega
  have h2 : ((p.x % 16) * 16 + p.y / 256) % 16 * 256 + p.y % 256 = p.y := by omega
  unfold mkPoint
  rw [h1, h2]

theorem parseFrame_encodePoints (pts : List HeliosPoint)
    (hval : ∀ p ∈ pts, p.x < 4096 ∧ p.y < 4096) (m0 m1 m2 m3 m4 : Nat) :
    parseFrame (encodePoints pts ++ [m0, m1, m2, m3, m4]) =
      some (pts, m0 + 256 * m1, m2 + 256 * m3, m4) := by
  induction pts with
  | nil => simp [encodePoints, parseFrame]
  | cons p ps ih =>
    have hp := hval p (List.mem_cons_self p ps)
    have hps : ∀ q ∈ ps, q.x < 4096 ∧ q.y < 4096 :=
      fun q hq => hval q (List.mem_cons_of_mem p hq)
    have hcons : encodePoints (p :: ps) ++ [m0, m1, m2, m3, m4] =
        p.x / 16 :: ((p.x % 16) * 16 + p.y / 256) :: (p.y % 256) :: p.r :: p.g :: p.b :: p.i ::
          (encodePoints ps ++ [m0, m1, m2, m3, m4]) := by
      simp [encodePoints, encodePoint]
    rw [hcons, parseFrame, ih hps]
    simp [mkPoint_encodePoint p hp.2]

/-- Claim C3: for every point sequence of length 1..4096 with coordinates in
0..4095 and colour channels in 0..255, every rate in 7..65535 and every flag
byte, encoding the frame into the device byte layout and decoding that byte
sequence recovers the original points, rate and flags exactly. -/
theorem encode_decode_roundtrip (pts : List HeliosPoint) (pps flags : Nat)
    (hval : ∀ p ∈ pts, p.Valid)
    (hlen1 : 1 ≤ pts.length) (hlen2 : pts.length ≤ HELIOS_MAX_POINTS)
    (hr1 : HELIOS_MIN_RATE ≤ pps) (hr2 : pps ≤ HELIOS_MAX_RATE)
    (hf : flags < 256) :
    parseFrame (encodeFrame pps flags pts) = some (pts, pps, pts.length, flags) := by
  have hr2n : pps ≤ 65535 := hr2
  have hlen2n : pts.length ≤ 4096 := hlen2
  unfold encodeFrame
  rw [parseFrame_encodePoints pts (fun p hp => ⟨(hval p hp).1, (hval p hp).2.1⟩)]
  have h1 : pps % 256 + 256 * (pps / 256 % 256) = pps := by omega
  have h2 : pts.length % 256 + 256 * (pts.length / 256 % 256) = pts.length := by omega
  have h3 : flags % 256 = flags := by omega
  rw [h1, h2, h3]

/-- Concrete frame used by witnesses: the two-point scenario of the spec. -/
def witnessPoints : List HeliosPoint :=
  [{ x := 0, y := 0, r := 255, g := 0, b := 0, i := 255 },
   { x := 4095, y := 4095, r := 0, g := 255, b := 0, i := 255 }]

/-- Witness for C3: the round-trip law evaluated on the spec scenario frame
(two points, rate 1000, default flags). -/
theorem encode_decode_roundtrip_witness :
    (∀ p ∈ witnessPoints, p.Valid) ∧
      parseFrame (encodeFrame 1000 HELIOS_FLAGS_DEFAULT witnessPoints) =
        some (witnessPoints, 1000, witnessPoints.length, HELIOS_FLAGS_DEFAULT) :=
  ⟨by decide,
   encode_decode_roundtrip witnessPoints 1000 HELIOS_FLAGS_DEFAULT
     (by decide) (by decide) (by decide) (by decide) (by decide) (by decide)⟩

/-- Modelled from the spec: the outcome taxonomy of the caller-facing surface
(`WriteFrame -> Success | Busy | InvalidArgument | TransportError`). -/
inductive WriteResult where
  | Success
  | Busy
  | InvalidArgument
  | TransportError
deriving DecidableEq, Repr

/-- The C-level return value of a result, per the convention of HeliosDac.h
line 94: unless otherwise specified, functions return `HELIOS_SUCCESS` if OK
and `HELIOS_ERROR` if something went wrong. -/
def WriteResult.toInt : WriteResult → Int
  | .Success => HELIOS_SUCCESS
  | _ => HELIOS_ERROR

/-- Device Session state, from the private fields of `HeliosDacDevice` in
HeliosDac.h: `frameReady` is the busy flag (`true` while a frame transfer is
outstanding, the Transferring state of the spec), `closed` is the session
liveness flag, `frameBuffer` is the single-slot frame-transfer buffer,
`frameResult` is the outcome of the most recently completed transfer, `name`
is the fixed 32-byte name storage (`char name[32]`), and `firmwareVersion` is
the cached firmware version. -/
structure HeliosDacDevice where
  frameReady : Bool
  closed : Bool
  frameBuffer : List Nat
  frameResult : WriteResult
  name : Fin 32 → Nat
  firmwareVersion : Nat

/-- Modelled from the spec: the transfer-completion handler
(`HeliosDacDevice::FrameHandler`, body not in the repository).  Invoked when
the Transport delivers the completion notification for the outstanding
transfer: it defensively checks session liveness first (a late notification
after close is a no-op), then records the result and clears the busy flag. -/
def FrameHandler (dev : HeliosDacDevice) (outcome : WriteResult) : HeliosDacDevice :=
  if dev.closed then dev
  else { dev with frameReady := false, frameResult := outcome }

/-- Modelled from the spec: the frame submission operation
(`HeliosDacDevice::SendFrame`, reached through `HeliosDac::WriteFrame`; body
not in the repository).  Point count and rate are validated first, before any
transport interaction and before touching shared state; a closed session
rejects new submissions; a session with a transfer outstanding fails with
`Busy` without blocking, without queueing and without altering the in-flight
buffer.  Otherwise the frame is encoded into the session buffer, the busy
flag is set and the buffer is submitted to the Transport.  With
`HELIOS_FLAGS_DONT_BLOCK` set the call returns `Success` at once, only
promising acceptance of the submission; with the flag unset the call returns
only after the asynchronous completion notification `completion` has been
processed by `FrameHandler`, and returns that outcome directly.  The third
component of the result lists the buffers handed to the Transport during the
call. -/
def SendFrame (dev : HeliosDacDevice) (pps : Nat) (flags : Nat)
    (points : List HeliosPoint) (completion : WriteResult) :
    WriteResult × HeliosDacDevice × List (List Nat) :=
  if points.length < 1 ∨ HELIOS_MAX_POINTS < points.length ∨
      pps < HELIOS_MIN_RATE ∨ HELIOS_MAX_RATE < pps then
    (.InvalidArgument, dev, [])
  else if dev.closed then
    (.TransportError, dev, [])
  else if dev.frameReady then
    (.Busy, dev, [])
  else if flags.testBit 2 then
    (.Success,
     { dev with frameReady := true, frameBuffer := encodeFrame pps flags points },
     [encodeFrame pps flags points])
  else
    (completion,
     FrameHandler { dev with frameReady := true, frameBuffer := encodeFrame pps flags points }
       completion,
     [encodeFrame pps flags points])

/-- Modelled from the spec: the status poll (`HeliosDacDevice::GetStatus`,
body not in the repository).  Per the header, the return value 1 means the
DAC is ready to receive a frame and 0 means it is not; a closed session
reports `HELIOS_ERROR`.  The poll is a pure read of the session state: it
modifies nothing and waits for nothing. -/
def GetStatus (dev : HeliosDacDevice) : Int :=
  if dev.closed then HELIOS_ERROR
  else if dev.frameReady then 0
  else 1

/-- Modelled from the spec: the control request payload that asks the device
to stop playback (issued by `HeliosDacDevice::Stop`, body not in the
repository). -/
def stopControlRequest : List Nat := [1, 0]

/-- Modelled from the spec: the halt operation (`HeliosDacDevice::Stop`, body
not in the repository).  On a live session the halt control request is issued
to the device; the local busy bookkeeping is left untouched, because only the
outstanding transfer's own completion notification may clear it.  The second
component lists the control requests issued to the Transport. -/
def Stop (dev : HeliosDacDevice) : Int × HeliosDacDevice × List (List Nat) :=
  if dev.closed then (HELIOS_ERROR, dev, [])
  else (HELIOS_SUCCESS, dev, [stopControlRequest])

/-- Modelled from the spec: the name query (`HeliosDacDevice::GetName`, body
not in the repository; the header documents that it populates the caller
buffer with max 32 characters).  On a live session it copies the fixed
32-byte name storage into the caller buffer. -/
def GetName (dev : HeliosDacDevice) : Int × List Nat :=
  if dev.closed then (HELIOS_ERROR, [])
  else (HELIOS_SUCCESS, List.ofFn dev.name)

/-- Concrete live idle session used by witnesses. -/
def devIdle : HeliosDacDevice :=
  { frameReady := false
    closed := false
    frameBuffer := []
    frameResult := .TransportError
    name := fun _ => 0
    firmwareVersion := 0 }

/-- Concrete live session with a transfer outstanding, used by witnesses. -/
def devBusy : HeliosDacDevice :=
  { frameReady := true
    closed := false
    frameBuffer := encodeFrame 1000 0 witnessPoints
    frameResult := .Success
    name := fun _ => 0
    firmwareVersion := 0 }

/-- Concrete closed session used by witnesses. -/
def devClosed : HeliosDacDevice :=
  { frameReady := true
    closed := true
    frameBuffer := encodeFrame 1000 0 witnessPoints
    frameResult := .Success
    name := fun _ => 0
    firmwareVersion := 0 }

/-- The frame arguments are within the ranges the header declares:
point count in `[1, HELIOS_MAX_POINTS]`, rate in
`[HELIOS_MIN_RATE, HELIOS_MAX_RATE]`. -/
theorem valid_args_not_rejected (pps : Nat) (pts : List HeliosPoint)
    (hlen1 : 1 ≤ pts.length) (hlen2 : pts.length ≤ HELIOS_MAX_POINTS)
    (hr1 : HELIOS_MIN_RATE ≤ pps) (hr2 : pps ≤ HELIOS_MAX_RATE) :
    ¬(pts.length < 1 ∨ HELIOS_MAX_POINTS < pts.length ∨
        pps < HELIOS_MIN_RATE ∨ HELIOS_MAX_RATE < pps) := by
  have h1 : pts.length ≤ 4096 := hlen2
  have h2 : 7 ≤ pps := hr1
  have h3 : pps ≤ 65535 := hr2
  unfold HELIOS_MAX_POINTS HELIOS_MIN_RATE HELIOS_MAX_RATE
  omega

/-- Claim C1: at most one frame transfer is outstanding per Device Session;
a submission issued while the session is Transferring returns `Busy` without
blocking (the result does not depend on any completion), without queueing the
new frame and without altering the in-flight buffer (the session state is
returned unchanged and nothing is handed to the Transport). -/
theorem sendFrame_busy_rejects (dev : HeliosDacDevice) (pps flags : Nat)
    (pts : List HeliosPoint) (c : WriteResult)
    (hlen1 : 1 ≤ pts.length) (hlen2 : pts.length ≤ HELIOS_MAX_POINTS)
    (hr1 : HELIOS_MIN_RATE ≤ pps) (hr2 : pps ≤ HELIOS_MAX_RATE)
    (hopen : dev.closed = false) (hbusy : dev.frameReady = true) :
    SendFrame dev pps flags pts c = (.Busy, dev, []) := by
  have hv := valid_args_not_rejected pps pts hlen1 hlen2 hr1 hr2
  unfold SendFrame
  rw [if_neg hv, if_neg (by simp [hopen]), if_pos hbusy]

/-- Witness for C1: a second submission to the busy concrete session is
rejected with `Busy` and the session is unchanged. -/
theorem sendFrame_busy_rejects_witness :
    devBusy.frameReady = true ∧
      SendFrame devBusy 1000 HELIOS_FLAGS_DEFAULT witnessPoints .Success =
        (.Busy, devBusy, []) :=
  ⟨rfl, sendFrame_busy_rejects devBusy 1000 HELIOS_FLAGS_DEFAULT witnessPoints .Success
    (by decide) (by decide) (by decide) (by decide) rfl rfl⟩

/-- Claim C2: any submission whose point count is outside `[1, 4096]` or
whose rate is outside `[7, 65535]` fails with `InvalidArgument` before any
transport interaction: the session state is returned unchanged and nothing is
handed to the Transport. -/
theorem sendFrame_invalid_args (dev : HeliosDacDevice) (pps flags : Nat)
    (pts : List HeliosPoint) (c : WriteResult)
    (h : pts.length < 1 ∨ HELIOS_MAX_POINTS < pts.length ∨
      pps < HELIOS_MIN_RATE ∨ HELIOS_MAX_RATE < pps) :
    SendFrame dev pps flags pts c = (.InvalidArgument, dev, []) := by
  unfold SendFrame
  rw [if_pos h]

/-- Witness for C2: a frame with point count 0 is rejected with
`InvalidArgument` and the Transport sees nothing. -/
theorem sendFrame_invalid_args_witness :
    ([] : List HeliosPoint).length < 1 ∧
      SendFrame devIdle 1000 HELIOS_FLAGS_DEFAULT [] .Success =
        (.InvalidArgument, devIdle, []) :=
  ⟨by decide, sendFrame_invalid_args devIdle 1000 HELIOS_FLAGS_DEFAULT [] .Success
    (Or.inl (by decide))⟩

/-- Claim C4: the status poll of a live session answers ready (1) exactly
when the session is Idle (no transfer outstanding) and not-ready (0) exactly
when it is Transferring; it is a pure read of the session state. -/
theorem getStatus_ready_iff_idle (dev : HeliosDacDevice) (hopen : dev.closed = false) :
    (GetStatus dev = 1 ↔ dev.frameReady = false) ∧
      (GetStatus dev = 0 ↔ dev.frameReady = true) := by
  cases hfr : dev.frameReady <;> simp [GetStatus, hopen, hfr]

/-- Witness for C4: the status poll evaluated on the concrete busy session. -/
theorem getStatus_ready_iff_idle_witness :
    (GetStatus devBusy = 1 ↔ devBusy.frameReady = false) ∧
      (GetStatus devBusy = 0 ↔ devBusy.frameReady = true) :=
  getStatus_ready_iff_idle devBusy rfl

/-- Counterexample to claim C5: at the C return-value convention of the
header (HELIOS_SUCCESS if OK, HELIOS_ERROR if something went wrong), the
failure outcomes of WriteFrame are not mutually distinguishable values:
`Busy`, `InvalidArgument` and `TransportError` all map to `HELIOS_ERROR`. -/
theorem writeResult_failures_indistinguishable :
    WriteResult.toInt .Busy = WriteResult.toInt .InvalidArgument ∧
      WriteResult.toInt .InvalidArgument = WriteResult.toInt .TransportError :=
  ⟨rfl, rfl⟩

/-- Claim C5 as amended: WriteFrame's return value distinguishes `Success`
(`HELIOS_SUCCESS` = 1) from failure (`HELIOS_ERROR` = -1), but the failure
causes `Busy`, `InvalidArgument` and `TransportError` all map to the same
error value and are not mutually distinguishable to the caller. -/
theorem writeResult_success_vs_failure (r : WriteResult) :
    (r.toInt = HELIOS_SUCCESS ↔ r = .Success) ∧
      (r.toInt = HELIOS_ERROR ↔ r ≠ .Success) := by
  cases r <;> decide

/-- Witness for the amended C5: the `Busy` outcome returns the shared error
value and not the success value. -/
theorem writeResult_success_vs_failure_witness :
    (WriteResult.toInt .Busy = HELIOS_SUCCESS ↔ WriteResult.Busy = .Success) ∧
      (WriteResult.toInt .Busy = HELIOS_ERROR ↔ WriteResult.Busy ≠ .Success) :=
  writeResult_success_vs_failure .Busy

/-- Claim C6: a submission with the non-blocking flag unset returns only
after the asynchronous completion notification has been processed (the
returned session state already has the completion recorded and the busy flag
cleared), and it returns that completion's outcome directly. -/
theorem sendFrame_blocking_returns_completion (dev : HeliosDacDevice)
    (pps flags : Nat) (pts : List HeliosPoint) (c : WriteResult)
    (hlen1 : 1 ≤ pts.length) (hlen2 : pts.length ≤ HELIOS_MAX_POINTS)
    (hr1 : HELIOS_MIN_RATE ≤ pps) (hr2 : pps ≤ HELIOS_MAX_RATE)
    (hopen : dev.closed = false) (hidle : dev.frameReady = false)
    (hnb : flags.testBit 2 = false) :
    (SendFrame dev pps flags pts c).1 = c ∧
      (SendFrame dev pps flags pts c).2.1.frameReady = false ∧
      (SendFrame dev pps flags pts c).2.1.frameResult = c := by
  have hv := valid_args_not_rejected pps pts hlen1 hlen2 hr1 hr2
  unfold SendFrame
  rw [if_neg hv, if_neg (by simp [hopen]), if_neg (by simp [hidle]), if_neg (by simp [hnb])]
  simp [FrameHandler, hopen]

/-- Witness for C6: a blocking submission whose transfer fails returns the
failure outcome itself, with the completion already processed. -/
theorem sendFrame_blocking_returns_completion_witness :
    (Nat.testBit HELIOS_FLAGS_DEFAULT 2 = false) ∧
      (SendFrame devIdle 1000 HELIOS_FLAGS_DEFAULT witnessPoints .TransportError).1 =
        .TransportError ∧
      (SendFrame devIdle 1000 HELIOS_FLAGS_DEFAULT witnessPoints .TransportError).2.1.frameReady
        = false ∧
      (SendFrame devIdle 1000 HELIOS_FLAGS_DEFAULT witnessPoints .TransportError).2.1.frameResult
        = .TransportError :=
  ⟨by decide, sendFrame_blocking_returns_completion devIdle 1000 HELIOS_FLAGS_DEFAULT
    witnessPoints .TransportError (by decide) (by decide) (by decide) (by decide) rfl rfl
    (by decide)⟩

/-- Claim C7: a submission with the non-blocking flag set, issued to a live
Idle session with valid arguments, returns `Success` whatever the eventual
completion outcome is (it only asserts acceptance of the submission); the
session stays Transferring (the status poll answers not-ready), and the true
outcome is surfaced only once the completion notification is processed, after
which the status poll answers ready and the recorded result is the
completion outcome. -/
theorem sendFrame_nonblocking_accepted (dev : HeliosDacDevice)
    (pps flags : Nat) (pts : List HeliosPoint) (c : WriteResult)
    (hlen1 : 1 ≤ pts.length) (hlen2 : pts.length ≤ HELIOS_MAX_POINTS)
    (hr1 : HELIOS_MIN_RATE ≤ pps) (hr2 : pps ≤ HELIOS_MAX_RATE)
    (hopen : dev.closed = false) (hidle : dev.frameReady = false)
    (hnb : flags.testBit 2 = true) :
    (SendFrame dev pps flags pts c).1 = .Success ∧
      (SendFrame dev pps flags pts c).2.1.frameReady = true ∧
      GetStatus (SendFrame dev pps flags pts c).2.1 = 0 ∧
      (FrameHandler (SendFrame dev pps flags pts c).2.1 c).frameResult = c ∧
      GetStatus (FrameHandler (SendFrame dev pps flags pts c).2.1 c) = 1 := by
  have hv := valid_args_not_rejected pps pts hlen1 hlen2 hr1 hr2
  unfold SendFrame
  rw [if_neg hv, if_neg (by simp [hopen]), if_neg (by simp [hidle]), if_pos hnb]
  simp [FrameHandler, GetStatus, hopen]

/-- Witness for C7: a non-blocking submission whose transfer will fail still
returns `Success`; the failure is surfaced by the later completion. -/
theorem sendFrame_nonblocking_accepted_witness :
    (Nat.testBit HELIOS_FLAGS_DONT_BLOCK 2 = true) ∧
      (SendFrame devIdle 1000 HELIOS_FLAGS_DONT_BLOCK witnessPoints .TransportError).1 =
        .Success ∧
      GetStatus (SendFrame devIdle 1000 HELIOS_FLAGS_DONT_BLOCK
        witnessPoints .TransportError).2.1 = 0 :=
  ⟨by decide,
   (sendFrame_nonblocking_accepted devIdle 1000 HELIOS_FLAGS_DONT_BLOCK witnessPoints
     .TransportError (by decide) (by decide) (by decide) (by decide) rfl rfl (by decide)).1,
   (sendFrame_nonblocking_accepted devIdle 1000 HELIOS_FLAGS_DONT_BLOCK witnessPoints
     .TransportError (by decide) (by decide) (by decide) (by decide) rfl rfl
     (by decide)).2.2.1⟩

/-- Claim C8: halting a live session with a transfer outstanding issues the
halt control request to the device but leaves the local busy bookkeeping
unchanged; only the transfer's own completion notification clears the busy
state. -/
theorem stop_preserves_busy (dev : HeliosDacDevice) (c : WriteResult)
    (hopen : dev.closed = false) (hbusy : dev.frameReady = true) :
    (Stop dev).2.2 = [stopControlRequest] ∧
      (Stop dev).2.1.frameReady = true ∧
      (FrameHandler (Stop dev).2.1 c).frameReady = false := by
  simp [Stop, FrameHandler, hopen, hbusy]

/-- Witness for C8: halting the concrete busy session issues the request,
leaves it busy, and the completion notification then clears the busy flag. -/
theorem stop_preserves_busy_witness :
    (Stop devBusy).2.2 = [stopControlRequest] ∧
      (Stop devBusy).2.1.frameReady = true ∧
      (FrameHandler (Stop devBusy).2.1 .Success).frameReady = false :=
  stop_preserves_busy devBusy .Success rfl rfl

/-- Claim C9: a completion notification that arrives for a closed session is
a safe no-op: the handler checks session liveness first and returns the
session state untouched. -/
theorem frameHandler_closed_noop (dev : HeliosDacDevice) (c : WriteResult)
    (hclosed : dev.closed = true) : FrameHandler dev c = dev := by
  simp [FrameHandler, hclosed]

/-- Witness for C9: a late completion on the concrete closed session changes
nothing. -/
theorem frameHandler_closed_noop_witness :
    devClosed.closed = true ∧ FrameHandler devClosed .Success = devClosed :=
  ⟨rfl, frameHandler_closed_noop devClosed .Success rfl⟩

/-- Claim C10: a GetName call writes at most 32 characters into the caller
buffer, matching the fixed 32-byte name storage of the session, so a 32-byte
caller buffer is always sufficient. -/
theorem getName_length_le (dev : HeliosDacDevice) :
    ((GetName dev).2).length ≤ 32 := by
  unfold GetName
  split <;> simp

end HeliosSpec
